import Mathlib

/-!
Verification development for the deenji-crawler extraction pipeline.

The Python sources (`extractor.py`, `text_utils.py`, `main.py`, `db_utils.py`)
are shallowly embedded below.  Python's dynamically typed values are embedded
as `PyVal`; Python numbers produced by the pipeline are embedded as `PyNum`,
where a non-integral float is represented as an exact decimal
`PyNum.float m e` with value `m / 10 ^ e` (CPython's IEEE-754 doubles are
modelled by exact decimal arithmetic; see the comments on `pyFloatOfString`).
Python strings are Lean `String`s; the string operations used by the source
(`in`, `replace`, `strip`, `lower`, digit translation) are re-implemented
over `List Char` so that all definitions evaluate by kernel reduction.
-/

/-- A Python number as produced by the pipeline: an `int`, or a float that is
not integral, kept as the exact decimal `m / 10 ^ e`.  `decToPyNum` below
canonicalises so that `float m e` always has `e > 0` and `10 ∤ m`. -/
inductive PyNum where
  | int (n : ℤ)
  | float (m : ℤ) (e : ℕ)
deriving Repr, DecidableEq

/-- A dynamically typed Python value, as stored in the pipeline's dicts. -/
inductive PyVal where
  | none
  | bool (b : Bool)
  | int (n : ℤ)
  | float (m : ℤ) (e : ℕ)
  | str (s : String)
deriving Repr, DecidableEq

/-- Python truthiness (`bool(v)`) for the values the pipeline handles. -/
def pyTruthy : PyVal → Bool
  | .none => false
  | .bool b => b
  | .int n => n != 0
  | .float m _ => m != 0
  | .str s => s != ""

/-- Embed an optional number (e.g. a `parse_persian_number` result) as a
Python value. -/
def pyOfNum : Option PyNum → PyVal
  | Option.none => .none
  | Option.some (.int n) => .int n
  | Option.some (.float m e) => .float m e

/-- Embed an optional string as a Python value. -/
def pyOfOptStr : Option String → PyVal
  | Option.none => .none
  | Option.some s => .str s

/-- Truthiness of an optional string (a Python value that is `None` or a
string): falsy exactly when missing or empty. -/
def optStrTruthy : Option String → Bool
  | Option.none => false
  | Option.some s => s != ""

/-- Python `a or b` for a possibly-missing string with a string default. -/
def optStrOr (o : Option String) (d : String) : String :=
  match o with
  | Option.none => d
  | Option.some s => if s = "" then d else s

/-- Does `pat` occur as a contiguous substring of `hay`?  This is Python's
`pat in hay` on strings (the empty pattern occurs everywhere). -/
def hasSubstring (hay pat : List Char) : Bool :=
  match hay with
  | [] => pat.isEmpty
  | _ :: t => pat.isPrefixOf hay || hasSubstring t pat

/-- Python `pat in hay` for strings. -/
def strContains (hay pat : String) : Bool :=
  hasSubstring hay.toList pat.toList

/-- Worker for `replaceChars`; `fuel` bounds the number of characters still
to be examined (every step consumes at least one, so `fuel = l.length`
makes the bound inert). -/
def replaceCharsAux (pat rep : List Char) : ℕ → List Char → List Char
  | 0, l => l
  | _ + 1, [] => []
  | fuel + 1, c :: rest =>
    if pat.isPrefixOf (c :: rest) then
      rep ++ replaceCharsAux pat rep fuel ((c :: rest).drop pat.length)
    else
      c :: replaceCharsAux pat rep fuel rest

/-- Replace every (leftmost, non-overlapping) occurrence of the non-empty
pattern `pat` by `rep`: Python's `str.replace`.  (The source never replaces
an empty pattern.) -/
def replaceChars (pat rep : List Char) (l : List Char) : List Char :=
  if pat = [] then l else replaceCharsAux pat rep l.length l

/-- Python `s.replace(pat, rep)`. -/
def strReplace (s pat rep : String) : String :=
  String.mk (replaceChars pat.toList rep.toList s.toList)

/-- ASCII lower-casing of one character.  Python's `str.lower` is
Unicode-aware, but every cased character the pipeline compares with is
ASCII and the Persian keywords are case-less, so ASCII lowering is the
behaviour exercised by the source. -/
def charToLower (c : Char) : Char :=
  if 'A' ≤ c && c ≤ 'Z' then Char.ofNat (c.toNat + 32) else c

/-- Python `s.lower()`. -/
def strLower (s : String) : String :=
  String.mk (s.toList.map charToLower)

/-- Whitespace for Python `str.strip()` (the source only ever strips ASCII
whitespace). -/
def isWs (c : Char) : Bool :=
  c = ' ' || c = '\t' || c = '\n' || c = '\r'

/-- Python `s.strip()`. -/
def strStrip (s : String) : String :=
  String.mk (((s.toList.dropWhile isWs).reverse.dropWhile isWs).reverse)

/-- The Persian-digit translation table `persian_num_map`. -/
def persianDigitMap (c : Char) : Char :=
  match c with
  | '۰' => '0' | '۱' => '1' | '۲' => '2' | '۳' => '3' | '۴' => '4'
  | '۵' => '5' | '۶' => '6' | '۷' => '7' | '۸' => '8' | '۹' => '9'
  | c => c

/-- The Arabic-digit translation table `arabic_num_map`. -/
def arabicDigitMap (c : Char) : Char :=
  match c with
  | '٠' => '0' | '١' => '1' | '٢' => '2' | '٣' => '3' | '٤' => '4'
  | '٥' => '5' | '٦' => '6' | '٧' => '7' | '٨' => '8' | '٩' => '9'
  | c => c

/-- Worker for `takeDigitsU`; `fuel` bounds the number of characters still
to be examined (every recursive step consumes at least one character, so
`fuel = l.length` makes the bound inert). -/
def takeDigitsUAux : ℕ → List Char → List Char × List Char
  | 0, l => ([], l)
  | _ + 1, [] => ([], [])
  | fuel + 1, c :: rest =>
    if c.isDigit then
      match rest with
      | '_' :: d :: rest2 =>
        if d.isDigit then
          let (ds, rem) := takeDigitsUAux fuel (d :: rest2)
          (c :: ds, rem)
        else ([c], rest)
      | _ =>
        let (ds, rem) := takeDigitsUAux fuel rest
        (c :: ds, rem)
    else ([], c :: rest)

/-- Consume a run of decimal digits in which single underscores may appear
between two digits (CPython's numeric-literal grammar for `float()`).
Returns the digits consumed (underscores dropped) and the rest. -/
def takeDigitsU (l : List Char) : List Char × List Char :=
  takeDigitsUAux l.length l

/-- Numeric value of a digit run. -/
def digitsToNat (l : List Char) : ℕ :=
  l.foldl (fun acc c => 10 * acc + (c.toNat - '0'.toNat)) 0

/-- CPython `float(s)` on an already-stripped string, as an exact decimal
`(m, e)` with value `m * 10 ^ e`: optional sign, digit run with optional
point and fraction, optional exponent; underscores only between digits.
`None` models `ValueError`.  Not modelled (documented deviations):
`"inf"`/`"nan"` spellings (which the pipeline's callers turn into `None`
downstream in every reachable path), IEEE-754 rounding, and overflow of the
finite double range — the value is kept exact. -/
def pyFloatOfString (s : String) : Option (ℤ × ℤ) :=
  let l := s.toList
  let (sgn, l1) : ℤ × List Char :=
    match l with
    | '+' :: t => (1, t)
    | '-' :: t => (-1, t)
    | _ => (1, l)
  let (ip, l2) := takeDigitsU l1
  let (fp, l3) :=
    match l2 with
    | '.' :: t => takeDigitsU t
    | _ => ([], l2)
  if ip.isEmpty && fp.isEmpty then Option.none
  else
    let m : ℤ := sgn * (digitsToNat (ip ++ fp) : ℤ)
    match l3 with
    | [] => Option.some (m, -(fp.length : ℤ))
    | c :: t =>
      if c = 'e' || c = 'E' then
        let (esgn, t1) : ℤ × List Char :=
          match t with
          | '+' :: u => (1, u)
          | '-' :: u => (-1, u)
          | _ => (1, t)
        let (ed, t2) := takeDigitsU t1
        if ed.isEmpty || !t2.isEmpty then Option.none
        else Option.some (m, esgn * (digitsToNat ed : ℤ) - (fp.length : ℤ))
      else Option.none

/-- Strip factors of ten shared between the mantissa and the denominator,
returning an `int` when nothing of the denominator is left.  This performs
Python's `int(num) if num == int(num) else num` on the exact decimal
`m / 10 ^ k`. -/
def stripTens (m : ℤ) : ℕ → PyNum
  | 0 => .int m
  | k + 1 => if m % 10 = 0 then stripTens (m / 10) k else .float m (k + 1)

/-- Canonicalise an exact decimal `m * 10 ^ e` into a `PyNum`. -/
def decToPyNum (m : ℤ) (e : ℤ) : PyNum :=
  if 0 ≤ e then .int (m * (10 : ℤ) ^ e.toNat) else stripTens m (-e).toNat

/-- The cleaning pipeline of `parse_persian_number`: drop unit words and
separators, translate Persian/Arabic digits, strip, then delete every
character outside `[0-9.-]` (the `re.sub(r"[^\d.-]+", "", ...)` step; the
non-ASCII digits `\d` also matches are already translated away at that
point). -/
def cleanNumberString (s : String) : String :=
  let s1 := strReplace (strReplace (strReplace (strReplace (strReplace s
    "متر" "") "تومان" "") "مترمربع" "") "٬" "") "," ""
  let s2 := String.mk ((s1.toList.map persianDigitMap).map arabicDigitMap)
  String.mk ((strStrip s2).toList.filter (fun c => c.isDigit || c = '.' || c = '-'))

/-- `extractor.parse_persian_number`.  The argument is `none` for Python
`None` or a non-string; `some s` for the string `s` (the guard `not s`
additionally rejects the empty string). -/
def parse_persian_number : Option String → Option PyNum
  | Option.none => Option.none
  | Option.some s =>
    if s = "" then Option.none
    else
      let c := cleanNumberString s
      if c = "" || c = "-" then Option.none
      else
        match pyFloatOfString c with
        | Option.none => Option.none
        | Option.some (m, e) => Option.some (decToPyNum m e)


/-!
## `text_utils.classify_property_type`

The rule-based keyword classifier.  The helper predicates below name the
keyword groups exactly as the source tests them; `classify_property_type`
itself is the verbatim cascade.  The source lower-cases both texts first
(a no-op on the Persian keywords) and maps a falsy (`None`/empty) text to
`""`; here the two texts are strings and `""` plays Python's `None`.
-/

/-- Villa keywords: the first branch's condition. -/
def hasVillaKw (t d : String) : Bool :=
  strContains t "ویلا" || strContains d "ویلا" ||
    strContains t "ویلایی" || strContains d "ویلایی"

/-- Unconditional apartment keywords (the apartment branch also accepts the
ambiguous cue `واحد` when no villa/land keyword co-occurs; that cue is kept
separate, in `hasUnitCue`). -/
def hasApartmentKw (t d : String) : Bool :=
  strContains t "آپارتمان" || strContains d "آپارتمان" ||
    strContains t "اپارتمان" || strContains d "اپارتمان" ||
    strContains t "برج" || strContains d "برج" ||
    strContains t "مجتمع مسکونی" || strContains d "مجتمع مسکونی"

/-- The ambiguous apartment cue `واحد` ("unit"). -/
def hasUnitCue (t d : String) : Bool :=
  strContains t "واحد" || strContains d "واحد"

/-- Unconditional land keywords. -/
def hasLandKw (t d : String) : Bool :=
  strContains t "زمین" || strContains d "زمین" ||
    strContains t "قطعه زمین" || strContains d "قطعه زمین" ||
    strContains t "قطعه" || strContains d "قطعه"

/-- The ambiguous land cues `باغ`/`باغچه` ("garden"). -/
def hasGardenCue (t d : String) : Bool :=
  strContains t "باغ" || strContains d "باغ" ||
    strContains t "باغچه" || strContains d "باغچه"

/-- The apartment branch's condition: an unconditional apartment keyword,
or the `واحد` cue with no villa and no land keyword in the same text. -/
def apartmentCond (t d : String) : Bool :=
  hasApartmentKw t d ||
    (hasUnitCue t d &&
      !(strContains t "ویلا" || strContains d "ویلا") &&
      !(strContains t "زمین" || strContains d "زمین"))

/-- The land branch's condition: an unconditional land keyword, or a garden
cue (`باغ`/`باغچه`) with no villa and no apartment keyword in the same
text. -/
def landCond (t d : String) : Bool :=
  hasLandKw t d ||
    ((strContains t "باغ" || strContains d "باغ") &&
      !(strContains t "ویلا" || strContains d "ویلا") &&
      !(strContains t "آپارتمان" || strContains d "آپارتمان") &&
      !(strContains t "اپارتمان" || strContains d "اپارتمان")) ||
    ((strContains t "باغچه" || strContains d "باغچه") &&
      !(strContains t "ویلا" || strContains d "ویلا") &&
      !(strContains t "آپارتمان" || strContains d "آپارتمان") &&
      !(strContains t "اپارتمان" || strContains d "اپارتمان"))

/-- `text_utils.classify_property_type`.  Returns `some "ویلا"` (villa),
`some "آپارتمان"` (apartment), `some "زمین"` (land) or `none` (unknown). -/
def classify_property_type (title description : String) : Option String :=
  let t := strLower title
  let d := strLower description
  if hasVillaKw t d then Option.some "ویلا"
  else if apartmentCond t d then Option.some "آپارتمان"
  else if landCond t d then Option.some "زمین"
  else Option.none


/-!
## `extractor.extract_attributes_from_api`

The API payload is embedded structurally: only the keys the source reads
are represented, and a key read with a default (`.get(k, "")`,
`.get("available", False)`) is a total field.  A `GROUP_FEATURE_ROW`
widget's optional `action` of type `LOAD_MODAL_PAGE` is the optional
`modal` list.
-/

/-- One entry of the raw attribute list: `{title, value?, key?, available?}`. -/
structure AttributeEntry where
  title : String
  value : Option String := Option.none
  key : Option String := Option.none
  available : Option Bool := Option.none
deriving Repr, DecidableEq

/-- One item of a `GROUP_FEATURE_ROW`'s `items`. -/
structure FeatureItem where
  title : String := ""
  available : Bool := false
  iconName : String := ""
deriving Repr, DecidableEq

/-- One widget of a modal page's `widget_list`. -/
inductive ModalWidget where
  | unexpandableRow (title value : String)
  | featureRow (title iconName : String)
  | otherWidget
deriving Repr, DecidableEq

/-- One widget of a section. -/
inductive Widget where
  | groupInfoRow (items : List (String × String))
  | unexpandableRow (title value : String)
  | groupFeatureRow (items : List FeatureItem) (modal : Option (List ModalWidget))
  | otherWidget
deriving Repr, DecidableEq

/-- The result dict of `extract_attributes_from_api` (also the mutable state
of its widget loop): the raw attribute list plus every canonical slot, with
the source's initial defaults. -/
structure ApiFields where
  attributes : List AttributeEntry := []
  area : PyVal := .none
  land_area : PyVal := .none
  property_type : Option String := Option.none
  bedrooms : PyVal := .none
  price : PyVal := .none
  price_per_meter : PyVal := .none
  year_built : PyVal := .none
  has_parking : Bool := false
  has_storage : Bool := false
  has_balcony : Bool := false
  title_deed_type : Option String := Option.none
  building_direction : Option String := Option.none
  renovation_status : Option String := Option.none
  floor_material : Option String := Option.none
  bathroom_type : Option String := Option.none
  cooling_system : Option String := Option.none
  heating_system : Option String := Option.none
  hot_water_system : Option String := Option.none
  floor_info : Option String := Option.none
deriving Repr, DecidableEq

/-- One `GROUP_INFO_ROW` item: append to the attribute list, then map the
known titles onto canonical slots. -/
def processInfoItem (st : ApiFields) (item : String × String) : ApiFields :=
  let (title, value) := item
  let st := { st with attributes := st.attributes ++ [{ title := title, value := Option.some value }] }
  if title = "متراژ" then { st with area := pyOfNum (parse_persian_number (Option.some value)) }
  else if title = "متراژ زمین" then { st with land_area := pyOfNum (parse_persian_number (Option.some value)) }
  else if title = "ساخت" then { st with year_built := pyOfNum (parse_persian_number (Option.some value)) }
  else if title = "اتاق" then { st with bedrooms := pyOfNum (parse_persian_number (Option.some value)) }
  else if title = "نوع ملک" then { st with property_type := Option.some value }
  else st

/-- One `UNEXPANDABLE_ROW` widget: append, then map price/floor titles. -/
def processUnexpRow (st : ApiFields) (title value : String) : ApiFields :=
  let st := { st with attributes := st.attributes ++ [{ title := title, value := Option.some value }] }
  if title = "قیمت کل" then { st with price := pyOfNum (parse_persian_number (Option.some value)) }
  else if title = "قیمت هر متر" then { st with price_per_meter := pyOfNum (parse_persian_number (Option.some value)) }
  else if title = "طبقه" then { st with floor_info := Option.some value }
  else st

/-- One `GROUP_FEATURE_ROW` item: append (with `available` and icon key),
map the parking/storage/balcony flags, then map the labelled feature
systems (each requires `available`, and all but the floor material also
require a specific icon). -/
def processFeatureItem (st : ApiFields) (item : FeatureItem) : ApiFields :=
  let title := strStrip item.title
  let st := { st with attributes := st.attributes ++
    [{ title := title, key := Option.some item.iconName, available := Option.some item.available }] }
  let st :=
    if strContains title "پارکینگ" then { st with has_parking := item.available }
    else if strContains title "انباری" then { st with has_storage := item.available }
    else if strContains title "بالکن" then { st with has_balcony := item.available }
    else st
  if strContains title "جنس کف" && item.available then
    { st with floor_material := Option.some (strStrip (strReplace title "جنس کف" "")) }
  else if strContains title "سرویس بهداشتی" && item.available && item.iconName = "WC" then
    { st with bathroom_type := Option.some (strStrip (strReplace title "سرویس بهداشتی" "")) }
  else if strContains title "سرمایش" && item.available && item.iconName = "SNOWFLAKE" then
    { st with cooling_system := Option.some (strStrip (strReplace title "سرمایش" "")) }
  else if strContains title "گرمایش" && item.available && item.iconName = "SUNNY" then
    { st with heating_system := Option.some (strStrip (strReplace title "گرمایش" "")) }
  else if strContains title "تأمین‌کننده آب گرم" && item.available && item.iconName = "THERMOMETER" then
    { st with hot_water_system := Option.some (strStrip (strReplace title "تأمین‌کننده آب گرم" "")) }
  else st

/-- One widget of a modal page (`LOAD_MODAL_PAGE` payload): rows append and
map the deed/direction/renovation titles; feature rows append as available
and map the feature systems by icon. -/
def processModalWidget (st : ApiFields) : ModalWidget → ApiFields
  | .unexpandableRow title value =>
    let st := { st with attributes := st.attributes ++ [{ title := title, value := Option.some value }] }
    if title = "سند" then { st with title_deed_type := Option.some value }
    else if title = "جهت ساختمان" then { st with building_direction := Option.some value }
    else if title = "وضعیت واحد" then { st with renovation_status := Option.some value }
    else st
  | .featureRow title0 iconName =>
    let title := strStrip title0
    let st := { st with attributes := st.attributes ++
      [{ title := title, key := Option.some iconName, available := Option.some true }] }
    if strContains title "جنس کف" then
      { st with floor_material := Option.some (strStrip (strReplace title "جنس کف" "")) }
    else if strContains title "سرویس بهداشتی" && iconName = "WC" then
      { st with bathroom_type := Option.some (strStrip (strReplace title "سرویس بهداشتی" "")) }
    else if strContains title "سرمایش" && iconName = "SNOWFLAKE" then
      { st with cooling_system := Option.some (strStrip (strReplace title "سرمایش" "")) }
    else if strContains title "گرمایش" && iconName = "SUNNY" then
      { st with heating_system := Option.some (strStrip (strReplace title "گرمایش" "")) }
    else if strContains title "تأمین‌کننده آب گرم" && iconName = "THERMOMETER" then
      { st with hot_water_system := Option.some (strStrip (strReplace title "تأمین‌کننده آب گرم" "")) }
    else st
  | .otherWidget => st

/-- Process one widget of a section. -/
def processWidget (st : ApiFields) : Widget → ApiFields
  | .groupInfoRow items => items.foldl processInfoItem st
  | .unexpandableRow title value => processUnexpRow st title value
  | .groupFeatureRow items modal =>
    let st := items.foldl processFeatureItem st
    match modal with
    | Option.some ws => ws.foldl processModalWidget st
    | Option.none => st
  | .otherWidget => st

/-- The primary pass of `extract_attributes_from_api`: the nested loop over
`sections` and their `widgets`. -/
def extractPass1 (sections : List (List Widget)) : ApiFields :=
  sections.foldl (fun st ws => ws.foldl processWidget st) {}

/-- `extractor.extract_value_from_attributes`: first entry whose title
equals `titleKey`; with `isNumeric` and a truthy value the value is parsed,
otherwise the raw value (a string or `None`) is returned. -/
def extract_value_from_attributes (attributes : List AttributeEntry)
    (titleKey : String) (isNumeric : Bool) : PyVal :=
  match attributes with
  | [] => .none
  | a :: rest =>
    if a.title = titleKey then
      match a.value with
      | Option.some v =>
        if isNumeric && v ≠ "" then pyOfNum (parse_persian_number (Option.some v))
        else .str v
      | Option.none => .none
    else extract_value_from_attributes rest titleKey isNumeric

/-- `extractor.extract_feature_from_attributes`: first entry whose title
contains `titlePre`, whose key matches (when a key is required) and which
is available; returns the title with the prefix removed, stripped. -/
def extract_feature_from_attributes (attributes : List AttributeEntry)
    (titlePre : String) (key : Option String) : Option String :=
  match attributes with
  | [] => Option.none
  | a :: rest =>
    if strContains a.title titlePre && (key.isNone || a.key == key) &&
        a.available.getD false then
      Option.some (strStrip (strReplace a.title titlePre ""))
    else extract_feature_from_attributes rest titlePre key

/-- The second pass of `extract_attributes_from_api`: every canonical slot
whose current value is falsy is re-resolved from the compiled attribute
list. -/
def extractPass2 (st : ApiFields) : ApiFields :=
  let st := if !pyTruthy st.bedrooms then
    { st with bedrooms := extract_value_from_attributes st.attributes "اتاق" true } else st
  let st := if !pyTruthy st.year_built then
    { st with year_built := extract_value_from_attributes st.attributes "ساخت" true } else st
  let st := if !optStrTruthy st.bathroom_type then
    { st with bathroom_type := extract_feature_from_attributes st.attributes "سرویس بهداشتی" (Option.some "WC") } else st
  let st := if !optStrTruthy st.heating_system then
    { st with heating_system := extract_feature_from_attributes st.attributes "گرمایش" (Option.some "SUNNY") } else st
  let st := if !optStrTruthy st.cooling_system then
    { st with cooling_system := extract_feature_from_attributes st.attributes "سرمایش" (Option.some "SNOWFLAKE") } else st
  let st := if !optStrTruthy st.hot_water_system then
    { st with hot_water_system := extract_feature_from_attributes st.attributes "تأمین‌کننده آب گرم" (Option.some "THERMOMETER") } else st
  let st := if !optStrTruthy st.floor_material then
    { st with floor_material := extract_feature_from_attributes st.attributes "جنس کف" (Option.some "TEXTURE") } else st
  st

/-- `extractor.extract_attributes_from_api`: the widget loop followed by the
second (fallback) pass. -/
def extract_attributes_from_api (sections : List (List Widget)) : ApiFields :=
  extractPass2 (extractPass1 sections)

/-!
## `extractor.fetch_divar_api_data` and `extractor.extract_property_details`

The network is abstracted as an `ApiResponse`; `fetch_divar_api_data`
returns the parsed body on HTTP 200 and the empty dict (`none`) on every
failure path.  The HTML side of `extract_property_details` runs selector
chains through BeautifulSoup; those selector results are abstracted as the
`HtmlFields` they produce (`none` models a chain that found nothing), and
`none` for the whole `HtmlFields` models empty HTML content.
-/

/-- The parts of the detail-API payload the extractor reads: `sections`
(each a list of widgets) and the optional `seo.post_seo_schema.geo`
coordinates. -/
structure ApiData where
  sections : List (List Widget) := []
  geoLatitude : Option PyNum := Option.none
  geoLongitude : Option PyNum := Option.none
deriving Repr

/-- Outcome of the HTTP call inside `fetch_divar_api_data`.  `ok` is an
HTTP 200 whose body parsed to the given dict (`none` for an empty object);
a JSON parse failure on a 200 is an `exn`. -/
inductive ApiResponse where
  | ok (body : Option ApiData)
  | rateLimited
  | httpStatus (n : ℕ)
  | timedOut
  | exn
deriving Repr

/-- `extractor.fetch_divar_api_data`: the dict on success, `{}` (here
`none`) on 429, any other status, a timeout, or any exception — it never
raises. -/
def fetch_divar_api_data : ApiResponse → Option ApiData
  | .ok body => body
  | .rateLimited => Option.none
  | .httpStatus _ => Option.none
  | .timedOut => Option.none
  | .exn => Option.none

/-- The values produced by the HTML selector chains of
`extract_property_details` for one page. -/
structure HtmlFields where
  title : Option String := Option.none
  description : Option String := Option.none
  image_urls : List String := []
  location : Option String := Option.none
deriving Repr, DecidableEq

/-- The extracted-details dict handed to `transform_for_db`.  The numeric
and boolean slots are dynamically typed (`PyVal`), as in the Python dict. -/
structure ExtractedFields where
  external_id : String
  title : String := "N/A"
  description : String := ""
  image_urls : List String := []
  location : Option String := Option.none
  location_coords : Option (PyNum × PyNum) := Option.none
  attributes : List AttributeEntry := []
  area : PyVal := .none
  land_area : PyVal := .none
  property_type : Option String := Option.none
  bedrooms : PyVal := .none
  price : PyVal := .none
  price_per_meter : PyVal := .none
  year_built : PyVal := .none
  has_parking : PyVal := .bool false
  has_storage : PyVal := .bool false
  has_balcony : PyVal := .bool false
  title_deed_type : Option String := Option.none
  building_direction : Option String := Option.none
  renovation_status : Option String := Option.none
  floor_material : Option String := Option.none
  bathroom_type : Option String := Option.none
  cooling_system : Option String := Option.none
  heating_system : Option String := Option.none
  hot_water_system : Option String := Option.none
  floor_info : Option String := Option.none
deriving Repr, DecidableEq

/-- Truthiness of an optional number (`if latitude and longitude`). -/
def optNumTruthy : Option PyNum → Bool
  | Option.none => false
  | Option.some (.int n) => n != 0
  | Option.some (.float m _) => m != 0

/-- `extractor.extract_property_details` (with `html = none` for empty HTML
content and `apiData` the result of the API fetch).  Returns `none` only
when the HTML is empty and `extract_api_only` is off; on an empty API dict
it installs the default (all-null / all-false) attribute values. -/
def extract_property_details (html : Option HtmlFields) (token : String)
    (apiData : Option ApiData) (apiOnly : Bool) : Option ExtractedFields :=
  if html.isNone && !apiOnly then Option.none
  else
    let (t, d, imgs, loc) :=
      if apiOnly then ("API Test Mode", "", ([] : List String), (Option.none : Option String))
      else
        match html with
        | Option.some h => (optStrOr h.title "N/A", optStrOr h.description "", h.image_urls, h.location)
        | Option.none => ("API Test Mode", "", [], Option.none)
    let base : ExtractedFields :=
      { external_id := token, title := t, description := d, image_urls := imgs, location := loc }
    match apiData with
    | Option.some ad =>
      let api := extract_attributes_from_api ad.sections
      let coords :=
        if optNumTruthy ad.geoLatitude && optNumTruthy ad.geoLongitude then
          match ad.geoLatitude, ad.geoLongitude with
          | Option.some la, Option.some lo => Option.some (la, lo)
          | _, _ => Option.none
        else Option.none
      Option.some { base with
        location_coords := coords
        attributes := api.attributes
        area := api.area
        land_area := api.land_area
        property_type := api.property_type
        bedrooms := api.bedrooms
        price := api.price
        price_per_meter := api.price_per_meter
        year_built := api.year_built
        has_parking := .bool api.has_parking
        has_storage := .bool api.has_storage
        has_balcony := .bool api.has_balcony
        title_deed_type := api.title_deed_type
        building_direction := api.building_direction
        renovation_status := api.renovation_status
        floor_material := api.floor_material
        bathroom_type := api.bathroom_type
        cooling_system := api.cooling_system
        heating_system := api.heating_system
        hot_water_system := api.hot_water_system
        floor_info := api.floor_info }
    | Option.none =>
      Option.some base

/-!
## `extractor.transform_for_db`
-/

/-- Decimal rendering of a non-integral float `m / 10 ^ e` (Python `str` of
a float, for the simple decimals the pipeline produces; no theorem below
inspects these strings). -/
def decimalRepr (m : ℤ) (e : ℕ) : String :=
  let sgn := if m < 0 then "-" else ""
  let ds := (toString m.natAbs).toList
  let ds := if ds.length ≤ e then List.replicate (e + 1 - ds.length) '0' ++ ds else ds
  let k := ds.length - e
  sgn ++ String.mk (ds.take k) ++ "." ++ (if e = 0 then "0" else String.mk (ds.drop k))

/-- Python `str(value)` for the values the pipeline stores. -/
def pyStr : PyVal → String
  | .none => "None"
  | .bool true => "True"
  | .bool false => "False"
  | .int n => toString n
  | .float m e => decimalRepr m e
  | .str s => s

/-- The numeric coercion of `transform_for_db`: `str(value).strip()`, the
`"None"`/`"null"` guards, `float(...)`, and `int(...)` for the integer
fields (or for an integral value).  The `bool` case renders as
`"True"`/`"False"`, which `float()` rejects (`ValueError`, caught → null);
an `int` or `float` value round-trips through its own string. -/
def coerceNumericField (isIntField : Bool) : PyVal → PyVal
  | .none => .none
  | .bool _ => .none
  | .int n => .int n
  | .float m e =>
    if isIntField then .int (Int.tdiv m ((10 : ℤ) ^ e)) else .float m e
  | .str s =>
    let t := strStrip s
    if t = "" || t = "None" || t = "null" then .none
    else
      match pyFloatOfString t with
      | Option.none => .none
      | Option.some (m, e) =>
        if isIntField then
          match decToPyNum m e with
          | .int n => .int n
          | .float m' e' => .int (Int.tdiv m' ((10 : ℤ) ^ e'))
        else
          match decToPyNum m e with
          | .int n => .int n
          | .float m' e' => .float m' e'

/-- The truthy strings of the boolean coercion. -/
def truthyStrings : List String := ["true", "1", "yes", "بله"]

/-- The boolean coercion of `transform_for_db`: a string is compared
lower-cased against the truthy words; anything else goes through
`bool(value)`. -/
def coerceBool (v : PyVal) : Bool :=
  match v with
  | .str s => truthyStrings.contains (strLower s)
  | v => pyTruthy v

/-- The text-field normalisation of `transform_for_db`: a non-`None` value
whose stripped string is non-empty is kept stripped; otherwise null. -/
def coerceTextField (o : Option String) : Option String :=
  match o with
  | Option.some s => if strStrip s ≠ "" then Option.some (strStrip s) else Option.none
  | Option.none => Option.none

/-- The bedrooms fallback of `transform_for_db`: the first attribute titled
`اتاق` with a truthy value is parsed (the loop keeps scanning past a
matching title whose value is falsy). -/
def fallbackBedrooms : List AttributeEntry → PyVal
  | [] => .none
  | a :: rest =>
    if a.title = "اتاق" && (a.value.getD "") ≠ "" then
      pyOfNum (parse_persian_number a.value)
    else fallbackBedrooms rest

/-- The feature fallbacks of `transform_for_db`: the first available
attribute whose title contains the prefix and whose key equals the icon
key yields the title with the prefix removed, stripped. -/
def fallbackFeature (pre key : String) : List AttributeEntry → Option String
  | [] => Option.none
  | a :: rest =>
    if strContains a.title pre && a.key == Option.some key && a.available.getD false then
      Option.some (strStrip (strReplace a.title pre ""))
    else fallbackFeature pre key rest

/-- The derived core attributes of `transform_for_db`, in the source's
insertion order, read from the *extracted* values. -/
def coreAttrs (e : ExtractedFields) : List (String × PyVal) :=
  [("متراژ", e.area),
   ("متراژ زمین", e.land_area),
   ("نوع ملک", pyOfOptStr e.property_type),
   ("ساخت", e.year_built),
   ("اتاق", e.bedrooms),
   ("قیمت کل", e.price),
   ("قیمت هر متر", e.price_per_meter),
   ("طبقه", pyOfOptStr e.floor_info)]

/-- The core-attribute merge: the existing titles are collected once, then
every core attribute with a non-`None` value whose title is not already
present is appended (value stringified). -/
def mergeCoreAttrs (attrs : List AttributeEntry) (core : List (String × PyVal)) :
    List AttributeEntry :=
  let existing := attrs.map (fun a => a.title)
  attrs ++ (core.filter (fun p => p.2 ≠ PyVal.none && !existing.contains p.1)).map
    (fun p => { title := p.1, value := Option.some (pyStr p.2) })

/-- The database-ready record built by `transform_for_db` (keys `p_*`).
The four analysis slots and the two list slots the source hard-codes are
carried with their constant values. -/
structure DbData where
  p_external_id : String
  p_title : String
  p_description : String := ""
  p_location : Option String := Option.none
  p_attributes : List AttributeEntry := []
  p_image_urls : List String := []
  p_investment_score : PyVal := .none
  p_market_trend : PyVal := .none
  p_neighborhood_fit_score : PyVal := .none
  p_rent_to_price_ratio : PyVal := .none
  p_highlight_flags : List String := []
  p_similar_properties : List String := []
  p_price : PyVal := .none
  p_price_per_meter : PyVal := .none
  p_area : PyVal := .none
  p_land_area : PyVal := .none
  p_year_built : PyVal := .none
  p_bedrooms : PyVal := .none
  p_has_parking : PyVal := .bool false
  p_has_storage : PyVal := .bool false
  p_has_balcony : PyVal := .bool false
  p_property_type : Option String := Option.none
  p_title_deed_type : Option String := Option.none
  p_building_direction : Option String := Option.none
  p_renovation_status : Option String := Option.none
  p_floor_material : Option String := Option.none
  p_bathroom_type : Option String := Option.none
  p_cooling_system : Option String := Option.none
  p_heating_system : Option String := Option.none
  p_hot_water_system : Option String := Option.none
  p_floor_info : Option String := Option.none
  p_latitude : Option PyNum := Option.none
  p_longitude : Option PyNum := Option.none
deriving Repr, DecidableEq

/-- The property-type readback of `transform_for_db`: the normalised
extracted value, else the value of the first merged attribute titled
`نوع ملک` (which may itself be `None`). -/
def propertyTypeReadback (pt : Option String) (attrs2 : List AttributeEntry) : Option String :=
  match coerceTextField pt with
  | Option.none =>
    match attrs2.find? (fun (a : AttributeEntry) => a.title == "نوع ملک") with
    | Option.some a => a.value
    | Option.none => Option.none
  | Option.some s => Option.some s

/-- The automatic classification step of `transform_for_db`: when the
property type is still unset, classify from title and description; a
truthy result is installed and also appended to the attribute list unless
an entry titled `نوع ملک` already exists. -/
def classifyAppend (title description : String) (pt : Option String)
    (attrs2 : List AttributeEntry) : Option String × List AttributeEntry :=
  match pt with
  | Option.some s => (Option.some s, attrs2)
  | Option.none =>
    match classify_property_type title description with
    | Option.some pt2 =>
      if pt2 ≠ "" then
        (Option.some pt2,
         if (attrs2.map (fun (a : AttributeEntry) => a.title)).contains "نوع ملک" then attrs2
         else attrs2 ++ [({ title := "نوع ملک", value := Option.some pt2 } : AttributeEntry)])
      else (Option.none, attrs2)
    | Option.none => (Option.none, attrs2)

/-- The record-assembly part of `transform_for_db` (everything after the
validation guard): numeric and boolean coercion, text normalisation,
coordinates, the per-field fallback extraction from the attribute list,
the core-attribute merge, the property-type readback and the keyword
classifier. -/
def buildDbRecord (e : ExtractedFields) : DbData :=
  let price := coerceNumericField false e.price
  let pricePerMeter := coerceNumericField false e.price_per_meter
  let area := coerceNumericField false e.area
  let landArea := coerceNumericField false e.land_area
  let yearBuilt := coerceNumericField true e.year_built
  let bedrooms := coerceNumericField true e.bedrooms
  let (lat, lon) :=
    match e.location_coords with
    | Option.some (la, lo) => (Option.some la, Option.some lo)
    | Option.none => (Option.none, Option.none)
  let bedrooms := if bedrooms = .none then fallbackBedrooms e.attributes else bedrooms
  let bathroomType := coerceTextField e.bathroom_type
  let bathroomType := if bathroomType = Option.none then
    fallbackFeature "سرویس بهداشتی" "WC" e.attributes else bathroomType
  let heatingSystem := coerceTextField e.heating_system
  let heatingSystem := if heatingSystem = Option.none then
    fallbackFeature "گرمایش" "SUNNY" e.attributes else heatingSystem
  let coolingSystem := coerceTextField e.cooling_system
  let coolingSystem := if coolingSystem = Option.none then
    fallbackFeature "سرمایش" "SNOWFLAKE" e.attributes else coolingSystem
  let hotWaterSystem := coerceTextField e.hot_water_system
  let hotWaterSystem := if hotWaterSystem = Option.none then
    fallbackFeature "تأمین‌کننده آب گرم" "THERMOMETER" e.attributes else hotWaterSystem
  let floorMaterial := coerceTextField e.floor_material
  let floorMaterial := if floorMaterial = Option.none then
    fallbackFeature "جنس کف" "TEXTURE" e.attributes else floorMaterial
  let attrs2 := mergeCoreAttrs e.attributes (coreAttrs e)
  let propertyType := propertyTypeReadback e.property_type attrs2
  let (propertyType, attrs3) := classifyAppend e.title e.description propertyType attrs2
  { p_external_id := e.external_id
    p_title := e.title
    p_description := e.description
    p_location := e.location
    p_attributes := attrs3
    p_image_urls := e.image_urls
    p_price := price
    p_price_per_meter := pricePerMeter
    p_area := area
    p_land_area := landArea
    p_year_built := yearBuilt
    p_bedrooms := bedrooms
    p_has_parking := .bool (coerceBool e.has_parking)
    p_has_storage := .bool (coerceBool e.has_storage)
    p_has_balcony := .bool (coerceBool e.has_balcony)
    p_property_type := propertyType
    p_title_deed_type := coerceTextField e.title_deed_type
    p_building_direction := coerceTextField e.building_direction
    p_renovation_status := coerceTextField e.renovation_status
    p_floor_material := floorMaterial
    p_bathroom_type := bathroomType
    p_cooling_system := coolingSystem
    p_heating_system := heatingSystem
    p_hot_water_system := hotWaterSystem
    p_floor_info := coerceTextField e.floor_info
    p_latitude := lat
    p_longitude := lon }

/-- `extractor.transform_for_db`.  `none` input models a falsy
`extracted_data`; validation rejects a missing/empty identifier and a
missing/empty/`"N/A"` title; otherwise the record is assembled by
`buildDbRecord`. -/
def transform_for_db (extracted : Option ExtractedFields) : Option DbData :=
  match extracted with
  | Option.none => Option.none
  | Option.some e =>
    if e.external_id = "" || e.title = "" || e.title = "N/A" then Option.none
    else Option.some (buildDbRecord e)

/-!
## `main.py`: dedup dispatch, pagination, and the concurrency gate

`crawl_with_semaphore_wrapper` checks and records the token in the run's
`crawled_tokens` set with no suspension point between check and add, so the
dedup logic is the sequential `submitToken` below (the `Bool` is whether
the fetch/extract/assemble/emit pipeline ran for this submission).
-/

/-- One submission to `crawl_with_semaphore_wrapper`: a falsy (missing or
empty) token or an already-seen token is a no-op; otherwise the token is
recorded and its pipeline runs. -/
def submitToken (seen : List String) (tok : Option String) : List String × Bool :=
  match tok with
  | Option.none => (seen, false)
  | Option.some t =>
    if t ≠ "" && !seen.contains t then (t :: seen, true) else (seen, false)

/-- Run a sequence of submissions against the dedup set, returning the
final set and the log of tokens whose pipeline ran, in order. -/
def runDispatch : List (Option String) → List String → List String × List String
  | [], seen => (seen, [])
  | tok :: rest, seen =>
    let (s1, fetched) := submitToken seen tok
    let (sf, log) := runDispatch rest s1
    (sf, (if fetched then [tok.getD ""] else []) ++ log)

/-- `PAGES_TO_CRAWL` from `main.py`. -/
def PAGES_TO_CRAWL : ℕ := 5

/-- `MAX_CONCURRENT_CRAWLS` from `main.py`. -/
def MAX_CONCURRENT_CRAWLS : ℕ := 3

/-- One widget of a search-API page, as the pagination loop reads it: its
`widget_type` and the `action_log.server_side_info.info.sort_date` leaf
(`none` when any step of that path is missing, which the source turns into
a caught `KeyError`/`IndexError`/`TypeError`). -/
structure LWidget where
  widgetType : String := ""
  sortDate : Option String := Option.none
deriving Repr, DecidableEq

/-- Result of one `fetch_divar_listings` call: `failed` when the fetch
returned `None` (any HTTP error or exception is caught inside and logged),
`noListWidgets` when the parsed response lacks the `list_widgets` key, and
`ok ws` otherwise. -/
inductive FetchResult where
  | failed
  | noListWidgets
  | ok (ws : List LWidget)
deriving Repr, DecidableEq

/-- Why the pagination loop of `main` stopped. -/
inductive StopReason where
  | fetchFailed
  | missingListWidgets
  | noCursorNoProps
  | noCursorAfterProps
  | exhausted
deriving Repr, DecidableEq

/-- Cursor update on a page with no `POST_ROW` widget: the `sort_date` of
the page's last widget replaces the held cursor only when present and
truthy (on a missing path or a falsy value the *previous* cursor
survives). -/
def emptyPageCursor (ws : List LWidget) (cur : Option String) : Option String :=
  match ws.getLast?.bind (fun w => w.sortDate) with
  | Option.some c => if c ≠ "" then Option.some c else cur
  | Option.none => cur

/-- Cursor update on a page with `POST_ROW` widgets: rederived from the
last of them, and reset to `None` when missing or falsy. -/
def propsPageCursor (props : List LWidget) : Option String :=
  match props.getLast?.bind (fun w => w.sortDate) with
  | Option.some c => if c ≠ "" then Option.some c else Option.none
  | Option.none => Option.none

/-- The pagination loop of `main` (the non-test, non-custom-list path).
`fetch pn cur` is the environment's response to fetching page `pn` with
cursor `cur`; `r` is the number of loop iterations left (`r = 0` means the
`range(1, PAGES_TO_CRAWL + 1)` loop is exhausted, and `r ≥ 1` inside an
iteration means `page_num < PAGES_TO_CRAWL`).  Returns the fetch calls
made, in order, and the reason the loop ended.  On a page with no
`POST_ROW` widget the cursor derived from the *last widget of the page* is
installed only when truthy — otherwise the previous cursor survives; on a
page with `POST_ROW` widgets the cursor is rederived from the last of them
and reset to `None` on failure. -/
def crawlLoop (fetch : ℕ → Option String → FetchResult) :
    ℕ → ℕ → Option String → List (ℕ × Option String) × StopReason
  | 0, _, _ => ([], .exhausted)
  | r + 1, pn, cur =>
    match fetch pn cur with
    | .failed => ([(pn, cur)], .fetchFailed)
    | .noListWidgets => ([(pn, cur)], .missingListWidgets)
    | .ok ws =>
      let props := ws.filter (fun w => w.widgetType == "POST_ROW")
      if props.isEmpty then
        let cur2 := emptyPageCursor ws cur
        if !optStrTruthy cur2 && r ≥ 1 then ([(pn, cur)], .noCursorNoProps)
        else
          let (calls, reason) := crawlLoop fetch r (pn + 1) cur2
          ((pn, cur) :: calls, reason)
      else
        let cur2 := propsPageCursor props
        if !optStrTruthy cur2 && r ≥ 1 then ([(pn, cur)], .noCursorAfterProps)
        else
          let (calls, reason) := crawlLoop fetch r (pn + 1) cur2
          ((pn, cur) :: calls, reason)

/-- The whole pagination run of `main`: page 1, no cursor, at most
`PAGES_TO_CRAWL` iterations. -/
def mainPagination (fetch : ℕ → Option String → FetchResult) :
    List (ℕ × Option String) × StopReason :=
  crawlLoop fetch PAGES_TO_CRAWL 1 Option.none

/-!
The dispatcher's concurrency gate (`asyncio.Semaphore(MAX_CONCURRENT_CRAWLS)`
around `crawl_and_save_property`) is modelled as a transition system: one
phase per submitted identifier, where the four pipeline stages run while a
gate slot is held, a slot can be taken only while fewer than `N` are held,
and the cooperative scheduler may interleave the tasks arbitrarily.
-/

/-- The phase of one identifier's task. -/
inductive TaskPhase where
  | pending
  | fetching
  | extracting
  | assembling
  | emitting
  | done
deriving Repr, DecidableEq

/-- Is the task holding a gate slot (inside `async with semaphore`)? -/
def inGate : TaskPhase → Bool
  | .pending => false
  | .done => false
  | _ => true

/-- The successor stage of a task's pipeline (program order inside
`crawl_and_save_property`). -/
def phaseSucc : TaskPhase → TaskPhase
  | .pending => .fetching
  | .fetching => .extracting
  | .extracting => .assembling
  | .assembling => .emitting
  | .emitting => .done
  | .done => .done

/-- Number of tasks currently holding a gate slot. -/
def gateCount (s : List TaskPhase) : ℕ := s.countP (fun p => inGate p)

/-- Number of detail fetches currently in flight. -/
def fetchCount (s : List TaskPhase) : ℕ := s.countP (fun p => p == TaskPhase.fetching)

/-- One scheduler step of the dispatcher with gate size `N`: a pending task
may enter the gate only while fewer than `N` slots are held; a task inside
the gate advances through its own pipeline in order; leaving the last
stage releases the slot. -/
inductive DispatchStep (N : ℕ) : List TaskPhase → List TaskPhase → Prop
  | acquire (s : List TaskPhase) (i : ℕ) (h : s.get? i = Option.some .pending)
      (hg : gateCount s < N) : DispatchStep N s (s.set i .fetching)
  | toExtract (s : List TaskPhase) (i : ℕ) (h : s.get? i = Option.some .fetching) :
      DispatchStep N s (s.set i .extracting)
  | toAssemble (s : List TaskPhase) (i : ℕ) (h : s.get? i = Option.some .extracting) :
      DispatchStep N s (s.set i .assembling)
  | toEmit (s : List TaskPhase) (i : ℕ) (h : s.get? i = Option.some .assembling) :
      DispatchStep N s (s.set i .emitting)
  | release (s : List TaskPhase) (i : ℕ) (h : s.get? i = Option.some .emitting) :
      DispatchStep N s (s.set i .done)

/-- Reachability from a state under the dispatcher's scheduler. -/
inductive DispatchReach (N : ℕ) : List TaskPhase → List TaskPhase → Prop
  | refl (s : List TaskPhase) : DispatchReach N s s
  | tail {s t u : List TaskPhase} (hr : DispatchReach N s t) (h : DispatchStep N t u) :
      DispatchReach N s u

/-!
## Claims
-/

set_option maxRecDepth 100000 in
/-- **C1** (code bug).  The claim says `parse_persian_number` never raises
and always returns an integer, a float or null.  The cleaning and parsing
pipeline does behave that way for every input CPython can represent as a
finite float, but on a 309-digit numeric string CPython's `float()`
overflows to `inf` and the subsequent `int(num)` raises `OverflowError`,
which the `except (ValueError, TypeError)` clause does not catch (the
sibling coercion in `transform_for_db` does catch `OverflowError`).  This
theorem evaluates the embedded (exact-arithmetic) function at that failing
input: the computed value, `10 ^ 309 - 1`, exceeds the largest finite IEEE
double (≈ 1.8 · 10 ^ 308), which is precisely why the real code raises
there instead of returning it. -/
theorem C1_overflow_input_value :
    parse_persian_number (Option.some (String.mk (List.replicate 309 '9'))) =
      Option.some (PyNum.int ((10 : ℤ) ^ 309 - 1)) := by decide

/-- **C2**.  `transform_for_db` on a present `ExtractedFields` returns null
exactly when the identifier is empty or the title is empty or the `"N/A"`
sentinel; every other input is accepted and yields a record. -/
theorem C2_validation_iff :
    ∀ e : ExtractedFields,
      transform_for_db (Option.some e) = Option.none ↔
        (e.external_id = "" ∨ e.title = "" ∨ e.title = "N/A") := by
  intro e
  simp only [transform_for_db]
  split <;> simp_all [or_assoc]

/-- **C10** (implicit).  Every failure of the detail-API fetch (429, any
non-200 status, timeout, any exception) yields the empty dict rather than
raising; a 200 passes its parsed body through.  Composed with
`extract_property_details`, a failed fetch still produces a details record
for the token: the HTML-derived fields (title with the `"N/A"` default,
description, images, location) are populated and everything else carries
the defaults — every numeric and text attribute slot `none`, every feature
flag `false` and an empty attribute list (the `ExtractedFields` record
defaults spell those out). -/
theorem C10_api_failure_defaults :
    fetch_divar_api_data ApiResponse.rateLimited = Option.none ∧
    (∀ n : ℕ, fetch_divar_api_data (ApiResponse.httpStatus n) = Option.none) ∧
    fetch_divar_api_data ApiResponse.timedOut = Option.none ∧
    fetch_divar_api_data ApiResponse.exn = Option.none ∧
    (∀ b : Option ApiData, fetch_divar_api_data (ApiResponse.ok b) = b) ∧
    (∀ (h : HtmlFields) (token : String),
      extract_property_details (Option.some h) token
          (fetch_divar_api_data ApiResponse.timedOut) false =
        Option.some { external_id := token, title := optStrOr h.title "N/A",
                      description := optStrOr h.description "",
                      image_urls := h.image_urls, location := h.location }) ∧
    (∀ (h : HtmlFields) (token : String),
      extract_property_details (Option.some h) token Option.none false =
        Option.some { external_id := token, title := optStrOr h.title "N/A",
                      description := optStrOr h.description "",
                      image_urls := h.image_urls, location := h.location }) :=
  ⟨rfl, fun _ => rfl, rfl, rfl, fun _ => rfl, fun _ _ => rfl, fun _ _ => rfl⟩

/-- **C3**.  The classifier always lands in the closed set
{Villa, Apartment, Land, Unknown}; any text with a villa keyword is Villa
regardless of what else occurs; apartment keywords without a villa keyword
give Apartment; a text whose only cues are land keywords gives Land; the
ambiguous garden cue cannot yield Land when a villa or apartment keyword
occurs in the same text; and a text with none of the cues is Unknown
(`none`).  The keyword groups are the source's: villa = {ویلا, ویلایی};
apartment = {آپارتمان, اپارتمان, برج, مجتمع مسکونی} with the conditional
cue واحد kept separate; land = {زمین, قطعه زمین, قطعه}; garden =
{باغ, باغچه}. -/
theorem C3_classifier :
    (∀ t d : String,
      classify_property_type t d = Option.some "ویلا" ∨
      classify_property_type t d = Option.some "آپارتمان" ∨
      classify_property_type t d = Option.some "زمین" ∨
      classify_property_type t d = Option.none) ∧
    (∀ t d : String, hasVillaKw (strLower t) (strLower d) = true →
      classify_property_type t d = Option.some "ویلا") ∧
    (∀ t d : String, hasApartmentKw (strLower t) (strLower d) = true →
      hasVillaKw (strLower t) (strLower d) = false →
      classify_property_type t d = Option.some "آپارتمان") ∧
    (∀ t d : String, hasLandKw (strLower t) (strLower d) = true →
      hasVillaKw (strLower t) (strLower d) = false →
      hasApartmentKw (strLower t) (strLower d) = false →
      hasUnitCue (strLower t) (strLower d) = false →
      classify_property_type t d = Option.some "زمین") ∧
    (∀ t d : String, hasGardenCue (strLower t) (strLower d) = true →
      (hasVillaKw (strLower t) (strLower d) || hasApartmentKw (strLower t) (strLower d)) = true →
      classify_property_type t d ≠ Option.some "زمین") ∧
    (∀ t d : String, hasVillaKw (strLower t) (strLower d) = false →
      hasApartmentKw (strLower t) (strLower d) = false →
      hasUnitCue (strLower t) (strLower d) = false →
      hasLandKw (strLower t) (strLower d) = false →
      hasGardenCue (strLower t) (strLower d) = false →
      classify_property_type t d = Option.none) := by
  refine ⟨?_, ?_, ?_, ?_, ?_, ?_⟩
  · intro t d
    simp only [classify_property_type]
    split
    · simp
    · split
      · simp
      · split <;> simp
  · intro t d h
    simp [classify_property_type, h]
  · intro t d h1 h2
    have hac : apartmentCond (strLower t) (strLower d) = true := by
      simp [apartmentCond, h1]
    simp [classify_property_type, h2, hac]
  · intro t d h1 h2 h3 h4
    have ha : apartmentCond (strLower t) (strLower d) = false := by
      simp [apartmentCond, h3, h4]
    have hl : landCond (strLower t) (strLower d) = true := by
      simp [landCond, h1]
    simp [classify_property_type, h2, ha, hl]
  · intro t d hg hva
    simp only [Bool.or_eq_true] at hva
    rcases hva with hv | ha
    · simp [classify_property_type, hv]
    · have hac : apartmentCond (strLower t) (strLower d) = true := by
        simp [apartmentCond, ha]
      by_cases hv : hasVillaKw (strLower t) (strLower d) = true
      · simp [classify_property_type, hv]
      · have hv2 : hasVillaKw (strLower t) (strLower d) = false := by
          revert hv
          cases hasVillaKw (strLower t) (strLower d) <;> simp
        simp [classify_property_type, hv2, hac]
  · intro t d h1 h2 h3 h4 h5
    have ha : apartmentCond (strLower t) (strLower d) = false := by
      simp [apartmentCond, h2, h3]
    have hl : landCond (strLower t) (strLower d) = false := by
      simp only [hasGardenCue, Bool.or_eq_false_iff] at h5
      obtain ⟨⟨⟨g1, g2⟩, g3⟩, g4⟩ := h5
      simp [landCond, h4, g1, g2, g3, g4]
    simp [classify_property_type, h1, ha, hl]

/-- Witness for C3: concrete texts hitting each conjunct. -/
theorem C3_classifier_witness :
    classify_property_type "فروش ویلا و آپارتمان" "" = Option.some "ویلا" ∧
    classify_property_type "آپارتمان نوساز" "" = Option.some "آپارتمان" ∧
    classify_property_type "زمین کشاورزی" "" = Option.some "زمین" ∧
    classify_property_type "باغ" "آپارتمان" ≠ Option.some "زمین" ∧
    classify_property_type "خانه" "" = Option.none :=
  ⟨C3_classifier.2.1 _ _ (by decide),
   C3_classifier.2.2.1 _ _ (by decide) (by decide),
   C3_classifier.2.2.2.1 _ _ (by decide) (by decide) (by decide) (by decide),
   C3_classifier.2.2.2.2.1 _ _ (by decide) (by decide),
   C3_classifier.2.2.2.2.2 _ _ (by decide) (by decide) (by decide) (by decide) (by decide)⟩

/-- Helper for C4: over any submission sequence, a token's pipeline runs at
most once, and never if it is already in the seen set. -/
theorem runDispatch_count_le (toks : List (Option String)) :
    ∀ (seen : List String) (t : String),
      ((runDispatch toks seen).2.count t) ≤ (if seen.contains t then 0 else 1) := by
  induction toks with
  | nil =>
    intro seen t
    simp [runDispatch]
  | cons tok rest ih =>
    intro seen t
    cases tok with
    | none =>
      simpa [runDispatch, submitToken] using ih seen t
    | some u =>
      by_cases hm : u ∈ seen
      · simpa [runDispatch, submitToken, hm] using ih seen t
      · by_cases hz : u = ""
        · simpa [runDispatch, submitToken, hz] using ih seen t
        · by_cases ht : u = t
          · subst ht
            have h1 := ih (u :: seen) u
            simp [List.contains_cons] at h1
            simp [runDispatch, submitToken, hz, hm, h1]
          · have hbe : (u == t) = false := beq_eq_false_iff_ne.mpr ht
            have hbe2 : (t == u) = false :=
              beq_eq_false_iff_ne.mpr (fun h => ht h.symm)
            have h1 := ih (u :: seen) t
            have hcc : ((u :: seen).contains t) = seen.contains t := by
              simp [List.contains_cons]
              exact fun h => absurd h.symm ht
            rw [hcc] at h1
            simpa [runDispatch, submitToken, List.count_cons, hz, hm, hbe, hbe2]
              using h1

/-- **C4**.  Within one run, an already-seen token's re-submission is a
silent no-op (no fetch, no state change), and over any submission sequence
each token's fetch/extract/assemble/emit pipeline runs at most once. -/
theorem C4_dedup :
    (∀ (seen : List String) (t : String), seen.contains t = true →
      submitToken seen (Option.some t) = (seen, false)) ∧
    (∀ (toks : List (Option String)) (t : String),
      ((runDispatch toks []).2.count t) ≤ 1) := by
  constructor
  · intro seen t h
    have hm : t ∈ seen := by simpa using h
    simp [submitToken, hm]
  · intro toks t
    simpa using runDispatch_count_le toks [] t

/-- Witness for C4 at concrete submissions. -/
theorem C4_dedup_witness :
    submitToken ["Aa1"] (Option.some "Aa1") = (["Aa1"], false) ∧
    ((runDispatch [Option.some "Aa1", Option.some "Aa1", Option.some "Bb2"] []).2.count "Aa1") ≤ 1 :=
  ⟨C4_dedup.1 ["Aa1"] "Aa1" (by decide), C4_dedup.2 _ "Aa1"⟩

/-- **C8**.  After the primary widget pass, the second pass re-resolves
every canonical slot that is still unset from the already-collected
attribute list: for each of the seven slots (bedrooms, year built,
bathroom type, heating, cooling, hot water, floor material), when the
primary pass left the slot falsy the final value is exactly the fallback
lookup over the collected attributes — so a document that exposes the
field only through a structure the primary mapping does not reach (e.g. a
nested modal row for `اتاق`) still resolves it to a non-null value. -/
theorem C8_second_pass :
    ∀ sections : List (List Widget),
      (pyTruthy (extractPass1 sections).bedrooms = false →
        (extract_attributes_from_api sections).bedrooms =
          extract_value_from_attributes (extractPass1 sections).attributes "اتاق" true) ∧
      (pyTruthy (extractPass1 sections).bedrooms = false →
        extract_value_from_attributes (extractPass1 sections).attributes "اتاق" true ≠ PyVal.none →
        (extract_attributes_from_api sections).bedrooms ≠ PyVal.none) ∧
      (pyTruthy (extractPass1 sections).year_built = false →
        (extract_attributes_from_api sections).year_built =
          extract_value_from_attributes (extractPass1 sections).attributes "ساخت" true) ∧
      (pyTruthy (extractPass1 sections).year_built = false →
        extract_value_from_attributes (extractPass1 sections).attributes "ساخت" true ≠ PyVal.none →
        (extract_attributes_from_api sections).year_built ≠ PyVal.none) ∧
      (optStrTruthy (extractPass1 sections).bathroom_type = false →
        (extract_attributes_from_api sections).bathroom_type =
          extract_feature_from_attributes (extractPass1 sections).attributes "سرویس بهداشتی" (Option.some "WC")) ∧
      (optStrTruthy (extractPass1 sections).bathroom_type = false →
        extract_feature_from_attributes (extractPass1 sections).attributes "سرویس بهداشتی" (Option.some "WC") ≠ Option.none →
        (extract_attributes_from_api sections).bathroom_type ≠ Option.none) ∧
      (optStrTruthy (extractPass1 sections).heating_system = false →
        (extract_attributes_from_api sections).heating_system =
          extract_feature_from_attributes (extractPass1 sections).attributes "گرمایش" (Option.some "SUNNY")) ∧
      (optStrTruthy (extractPass1 sections).heating_system = false →
        extract_feature_from_attributes (extractPass1 sections).attributes "گرمایش" (Option.some "SUNNY") ≠ Option.none →
        (extract_attributes_from_api sections).heating_system ≠ Option.none) ∧
      (optStrTruthy (extractPass1 sections).cooling_system = false →
        (extract_attributes_from_api sections).cooling_system =
          extract_feature_from_attributes (extractPass1 sections).attributes "سرمایش" (Option.some "SNOWFLAKE")) ∧
      (optStrTruthy (extractPass1 sections).cooling_system = false →
        extract_feature_from_attributes (extractPass1 sections).attributes "سرمایش" (Option.some "SNOWFLAKE") ≠ Option.none →
        (extract_attributes_from_api sections).cooling_system ≠ Option.none) ∧
      (optStrTruthy (extractPass1 sections).hot_water_system = false →
        (extract_attributes_from_api sections).hot_water_system =
          extract_feature_from_attributes (extractPass1 sections).attributes "تأمین‌کننده آب گرم" (Option.some "THERMOMETER")) ∧
      (optStrTruthy (extractPass1 sections).hot_water_system = false →
        extract_feature_from_attributes (extractPass1 sections).attributes "تأمین‌کننده آب گرم" (Option.some "THERMOMETER") ≠ Option.none →
        (extract_attributes_from_api sections).hot_water_system ≠ Option.none) ∧
      (optStrTruthy (extractPass1 sections).floor_material = false →
        (extract_attributes_from_api sections).floor_material =
          extract_feature_from_attributes (extractPass1 sections).attributes "جنس کف" (Option.some "TEXTURE")) ∧
      (optStrTruthy (extractPass1 sections).floor_material = false →
        extract_feature_from_attributes (extractPass1 sections).attributes "جنس کف" (Option.some "TEXTURE") ≠ Option.none →
        (extract_attributes_from_api sections).floor_material ≠ Option.none) := by
  intro sections
  refine ⟨?_, ?_, ?_, ?_, ?_, ?_, ?_, ?_, ?_, ?_, ?_, ?_, ?_, ?_⟩ <;>
    (intros
     simp [extract_attributes_from_api, extractPass2,
       apply_ite ApiFields.bedrooms, apply_ite ApiFields.year_built,
       apply_ite ApiFields.bathroom_type, apply_ite ApiFields.heating_system,
       apply_ite ApiFields.cooling_system, apply_ite ApiFields.hot_water_system,
       apply_ite ApiFields.floor_material, apply_ite ApiFields.attributes, *])

/-- Witness for C8: a document exposing the bedroom count only inside a
nested modal row still resolves it (to `2`). -/
theorem C8_second_pass_witness :
    (extract_attributes_from_api
        [[Widget.groupFeatureRow []
            (Option.some [ModalWidget.unexpandableRow "اتاق" "۲"])]]).bedrooms ≠
      PyVal.none :=
  (C8_second_pass _).2.1 (by decide) (by decide)

/-- Is the value a strict boolean? -/
def pyIsStrictBool : PyVal → Bool
  | .bool _ => true
  | _ => false

/-- Is the value an int, a float or null (in particular, not a string)? -/
def pyIsNumOrNull : PyVal → Bool
  | .none => true
  | .int _ => true
  | .float _ _ => true
  | _ => false

/-- The numeric coercion always yields an int, a float or null. -/
theorem coerceNumericField_isNumOrNull (b : Bool) (v : PyVal) :
    pyIsNumOrNull (coerceNumericField b v) = true := by
  cases v <;> simp only [coerceNumericField] <;> (repeat' split) <;> rfl

/-- Embedding an optional parse result never yields a string. -/
theorem pyOfNum_isNumOrNull (o : Option PyNum) :
    pyIsNumOrNull (pyOfNum o) = true := by
  cases o with
  | none => rfl
  | some n => cases n <;> rfl

/-- The bedrooms fallback always yields an int, a float or null. -/
theorem fallbackBedrooms_isNumOrNull (l : List AttributeEntry) :
    pyIsNumOrNull (fallbackBedrooms l) = true := by
  induction l with
  | nil => rfl
  | cons a rest ih =>
    simp only [fallbackBedrooms]
    split
    · exact pyOfNum_isNumOrNull _
    · exact ih

/-- **C9**.  In every record `transform_for_db` emits, the three feature
slots are strict booleans (never null, tri-state or strings), with an
absent (`None`) or negative-word string value normalised to `false`; and
the six numeric slots are int, float or null — never strings. -/
theorem C9_strict_types :
    ∀ (e : ExtractedFields) (r : DbData), transform_for_db (Option.some e) = Option.some r →
      (pyIsStrictBool r.p_has_parking = true ∧
       pyIsStrictBool r.p_has_storage = true ∧
       pyIsStrictBool r.p_has_balcony = true) ∧
      (pyIsNumOrNull r.p_price = true ∧
       pyIsNumOrNull r.p_price_per_meter = true ∧
       pyIsNumOrNull r.p_area = true ∧
       pyIsNumOrNull r.p_land_area = true ∧
       pyIsNumOrNull r.p_year_built = true ∧
       pyIsNumOrNull r.p_bedrooms = true) ∧
      ((e.has_parking = PyVal.none → r.p_has_parking = PyVal.bool false) ∧
       (e.has_storage = PyVal.none → r.p_has_storage = PyVal.bool false) ∧
       (e.has_balcony = PyVal.none → r.p_has_balcony = PyVal.bool false)) ∧
      ((∀ s : String, e.has_parking = PyVal.str s →
          truthyStrings.contains (strLower s) = false → r.p_has_parking = PyVal.bool false) ∧
       (∀ s : String, e.has_storage = PyVal.str s →
          truthyStrings.contains (strLower s) = false → r.p_has_storage = PyVal.bool false) ∧
       (∀ s : String, e.has_balcony = PyVal.str s →
          truthyStrings.contains (strLower s) = false → r.p_has_balcony = PyVal.bool false)) := by
  intro e r h
  have hr : r = buildDbRecord e := by
    simp only [transform_for_db] at h
    split at h
    · exact absurd h (by simp)
    · exact (Option.some.inj h).symm
  subst hr
  refine ⟨⟨rfl, rfl, rfl⟩, ⟨?_, ?_, ?_, ?_, ?_, ?_⟩, ⟨?_, ?_, ?_⟩, ⟨?_, ?_, ?_⟩⟩
  · exact coerceNumericField_isNumOrNull false e.price
  · exact coerceNumericField_isNumOrNull false e.price_per_meter
  · exact coerceNumericField_isNumOrNull false e.area
  · exact coerceNumericField_isNumOrNull false e.land_area
  · exact coerceNumericField_isNumOrNull true e.year_built
  · have hb : (buildDbRecord e).p_bedrooms =
        (if coerceNumericField true e.bedrooms = PyVal.none then
          fallbackBedrooms e.attributes else coerceNumericField true e.bedrooms) := rfl
    rw [hb]
    split
    · exact fallbackBedrooms_isNumOrNull e.attributes
    · exact coerceNumericField_isNumOrNull true e.bedrooms
  · intro h0
    have hp : (buildDbRecord e).p_has_parking = PyVal.bool (coerceBool e.has_parking) := rfl
    rw [hp, h0]
    rfl
  · intro h0
    have hp : (buildDbRecord e).p_has_storage = PyVal.bool (coerceBool e.has_storage) := rfl
    rw [hp, h0]
    rfl
  · intro h0
    have hp : (buildDbRecord e).p_has_balcony = PyVal.bool (coerceBool e.has_balcony) := rfl
    rw [hp, h0]
    rfl
  · intro s hs hcont
    have hp : (buildDbRecord e).p_has_parking = PyVal.bool (coerceBool e.has_parking) := rfl
    rw [hp, hs]
    simp [coerceBool]
    simpa using hcont
  · intro s hs hcont
    have hp : (buildDbRecord e).p_has_storage = PyVal.bool (coerceBool e.has_storage) := rfl
    rw [hp, hs]
    simp [coerceBool]
    simpa using hcont
  · intro s hs hcont
    have hp : (buildDbRecord e).p_has_balcony = PyVal.bool (coerceBool e.has_balcony) := rfl
    rw [hp, hs]
    simp [coerceBool]
    simpa using hcont

/-- A concrete extracted record with an absent parking flag and a
negative-word storage flag, for the C9 witness. -/
def c9Example : ExtractedFields :=
  { external_id := "tok1", title := "x", has_parking := PyVal.none,
    has_storage := PyVal.str "ندارد", price := PyVal.str "1200" }

/-- Witness for C9: the emitted record's parking slot is a strict boolean
and the negative-word storage flag normalises to `false`. -/
theorem C9_strict_types_witness :
    pyIsStrictBool (buildDbRecord c9Example).p_has_parking = true ∧
    (buildDbRecord c9Example).p_has_storage = PyVal.bool false :=
  ⟨((C9_strict_types c9Example (buildDbRecord c9Example) (by rfl)).1).1,
   (C9_strict_types c9Example (buildDbRecord c9Example) (by rfl)).2.2.2.2.1
     "ندارد" rfl (by decide)⟩

/-- Helper for C5: when keys are distinct, at most one pair matches a
title. -/
theorem countP_key_le_one (l : List (String × PyVal)) (t : String) :
    (l.map Prod.fst).Nodup → l.countP (fun p => p.1 == t) ≤ 1 := by
  induction l with
  | nil => intro _; simp
  | cons x xs ih =>
    intro h
    simp only [List.map_cons, List.nodup_cons] at h
    obtain ⟨hx, hxs⟩ := h
    rw [List.countP_cons]
    by_cases hxt : x.1 = t
    · have h0 : xs.countP (fun p => p.1 == t) = 0 := by
        rw [List.countP_eq_zero]
        intro a ha
        simp only [beq_iff_eq]
        intro hat
        exact hx (List.mem_map.mpr ⟨a, ha, by rw [hat, hxt]⟩)
      simp [h0, hxt]
    · have hbe : (x.1 == t) = false := beq_eq_false_iff_ne.mpr hxt
      simpa [hbe] using ih hxs

/-- Helper for C5: when a title is already present, the core-attribute
merge leaves its multiplicity unchanged. -/
theorem countP_mergeCoreAttrs_of_present (attrs : List AttributeEntry)
    (core : List (String × PyVal)) (t : String) :
    1 ≤ attrs.countP (fun a => a.title == t) →
    (mergeCoreAttrs attrs core).countP (fun a => a.title == t) =
      attrs.countP (fun a => a.title == t) := by
  intro hc
  have hmem : t ∈ attrs.map (fun a => a.title) := by
    rcases List.countP_pos_iff.mp (Nat.lt_of_lt_of_le Nat.zero_lt_one hc) with ⟨a, ha, hp⟩
    exact List.mem_map.mpr ⟨a, ha, by simpa using hp⟩
  have h0 : ((core.filter
      (fun p => p.2 ≠ PyVal.none && !(attrs.map (fun a => a.title)).contains p.1)).map
      (fun p => ({ title := p.1, value := Option.some (pyStr p.2) } : AttributeEntry))).countP
      (fun a => a.title == t) = 0 := by
    rw [List.countP_eq_zero]
    intro x hx
    rcases List.mem_map.mp hx with ⟨p, hpmem, hpx⟩
    rcases List.mem_filter.mp hpmem with ⟨hpc, hq⟩
    rcases (Bool.and_eq_true _ _).mp hq with ⟨hv, hnc⟩
    subst hpx
    simp only [beq_iff_eq]
    intro hat
    have hncontains : ¬ t ∈ attrs.map (fun a => a.title) := by
      rw [← hat]
      simpa using hnc
    exact hncontains hmem
  have hmerge : mergeCoreAttrs attrs core =
      attrs ++ ((core.filter
        (fun p => p.2 ≠ PyVal.none && !(attrs.map (fun a => a.title)).contains p.1)).map
        (fun p => ({ title := p.1, value := Option.some (pyStr p.2) } : AttributeEntry))) := rfl
  rw [hmerge, List.countP_append, h0]
  omega

/-- Helper for C5: when a title is absent, the core-attribute merge adds at
most one entry with that title (core keys are distinct). -/
theorem countP_mergeCoreAttrs_of_absent (attrs : List AttributeEntry)
    (core : List (String × PyVal)) (t : String) :
    (core.map Prod.fst).Nodup →
    attrs.countP (fun a => a.title == t) = 0 →
    (mergeCoreAttrs attrs core).countP (fun a => a.title == t) ≤ 1 := by
  intro hnd hc0
  have hmap : ((core.filter
      (fun p => p.2 ≠ PyVal.none && !(attrs.map (fun a => a.title)).contains p.1)).map
      (fun p => ({ title := p.1, value := Option.some (pyStr p.2) } : AttributeEntry))).countP
      (fun a => a.title == t) =
      (core.filter
        (fun p => p.2 ≠ PyVal.none && !(attrs.map (fun a => a.title)).contains p.1)).countP
        (fun p => p.1 == t) := by
    rw [List.countP_map]
    rfl
  have hfle : (core.filter
      (fun p => p.2 ≠ PyVal.none && !(attrs.map (fun a => a.title)).contains p.1)).countP
      (fun p => p.1 == t) ≤ core.countP (fun p => p.1 == t) := by
    rw [List.countP_filter]
    exact List.countP_mono_left (fun a _ h => ((Bool.and_eq_true _ _).mp h).1)
  have hcle := countP_key_le_one core t hnd
  have hmerge : mergeCoreAttrs attrs core =
      attrs ++ ((core.filter
        (fun p => p.2 ≠ PyVal.none && !(attrs.map (fun a => a.title)).contains p.1)).map
        (fun p => ({ title := p.1, value := Option.some (pyStr p.2) } : AttributeEntry))) := rfl
  rw [hmerge, List.countP_append, hc0, hmap]
  omega

/-- Helper for C5: the classification step preserves the multiplicity of a
present title and adds at most one entry to an absent one. -/
theorem classifyAppend_count (ti de : String) (pt : Option String)
    (l : List AttributeEntry) (t : String) :
    (1 ≤ l.countP (fun a => a.title == t) →
      ((classifyAppend ti de pt l).2.countP (fun a => a.title == t)) =
        l.countP (fun a => a.title == t)) ∧
    (l.countP (fun a => a.title == t) = 0 →
      ((classifyAppend ti de pt l).2.countP (fun a => a.title == t)) ≤ 1) := by
  cases pt with
  | some s => exact ⟨fun _ => rfl, fun h0 => by simp [classifyAppend, h0]⟩
  | none =>
    cases hcl : classify_property_type ti de with
    | none =>
      exact ⟨fun _ => by simp [classifyAppend, hcl],
             fun h0 => by simp [classifyAppend, hcl, h0]⟩
    | some pt2 =>
      simp only [classifyAppend, hcl]
      by_cases hne : pt2 = ""
      · rw [if_neg (fun hc => hc hne)]
        exact ⟨fun _ => rfl, fun h0 => by simp [h0]⟩
      · rw [if_pos hne]
        cases hin : (l.map (fun (a : AttributeEntry) => a.title)).contains "نوع ملک" with
        | true =>
          constructor
          · intro _
            simp
          · intro h0
            simp [h0]
        | false =>
          constructor
          · intro hc
            have hmem : t ∈ l.map (fun (a : AttributeEntry) => a.title) := by
              rcases List.countP_pos_iff.mp (Nat.lt_of_lt_of_le Nat.zero_lt_one hc) with
                ⟨a, hamem, hp⟩
              exact List.mem_map.mpr ⟨a, hamem, by simpa using hp⟩
            have hnin : ¬ "نوع ملک" ∈ l.map (fun (a : AttributeEntry) => a.title) := by
              simpa using hin
            have hne3 : ¬ "نوع ملک" = t := by
              intro hat
              rw [← hat] at hmem
              exact hnin hmem
            simp [List.countP_append, List.countP_singleton, hne3]
          · intro h0
            simp [List.countP_append, List.countP_singleton, h0]
            split <;> simp

/-- Number of entries with a given title in an emitted record's attribute
list. -/
def countTitleEntries (t : String) (r : DbData) : ℕ :=
  r.p_attributes.countP (fun a => a.title == t)

/-- A page whose API payload carries the floor label `طبقه` both as a
single row and inside the nested modal sub-document. -/
def c5Api : ApiData :=
  { sections := [[Widget.unexpandableRow "طبقه" "۳",
      Widget.groupFeatureRow [] (Option.some [ModalWidget.unexpandableRow "طبقه" "۳"])]] }

/-- The HTML side of the C5 pipeline input. -/
def c5Html : HtmlFields := { title := Option.some "خانه" }

/-- The emitted record of the C5 pipeline input. -/
def c5Record : Option DbData :=
  transform_for_db (extract_property_details (Option.some c5Html) "tokC5" (Option.some c5Api) false)

/-- **C5** (counterexample).  The claim says that when two entries with the
same title arrive from different structural sources, the emitted record's
merged attribute list contains exactly one entry for that title.  With
`طبقه` arriving from a single row and from the nested modal sub-document,
the emitted record contains two entries with that title: nothing
deduplicates entries collected from different sources. -/
theorem C5_counterexample :
    c5Record.map (countTitleEntries "طبقه") = Option.some 2 ∧ (2 : ℕ) ≠ 1 :=
  ⟨by decide, by decide⟩

/-- **C5** (amended).  Entry deduplication happens only at the merge of
*derived core attributes* (and the classifier's appended type): a core
attribute is appended only when no collected entry already bears its
title, so the merge never changes the multiplicity of a title that is
already present and introduces at most one entry for an absent title.
Entries collected from different structural sources are appended without
deduplication, so a title's multiplicity in the emitted record equals its
multiplicity in the collected list whenever that is at least one. -/
theorem C5_amended_merge :
    ∀ (e : ExtractedFields) (r : DbData) (t : String),
      transform_for_db (Option.some e) = Option.some r →
      (1 ≤ e.attributes.countP (fun a => a.title == t) →
        r.p_attributes.countP (fun a => a.title == t) =
          e.attributes.countP (fun a => a.title == t)) ∧
      (e.attributes.countP (fun a => a.title == t) = 0 →
        r.p_attributes.countP (fun a => a.title == t) ≤ 1) := by
  intro e r t h
  have hr : r = buildDbRecord e := by
    simp only [transform_for_db] at h
    split at h
    · exact absurd h (by simp)
    · exact (Option.some.inj h).symm
  subst hr
  have hpa : (buildDbRecord e).p_attributes =
      (classifyAppend e.title e.description
        (propertyTypeReadback e.property_type (mergeCoreAttrs e.attributes (coreAttrs e)))
        (mergeCoreAttrs e.attributes (coreAttrs e))).2 := rfl
  have hnd : ((coreAttrs e).map Prod.fst).Nodup := by
    have hlit : (coreAttrs e).map Prod.fst =
        ["متراژ", "متراژ زمین", "نوع ملک", "ساخت", "اتاق", "قیمت کل", "قیمت هر متر", "طبقه"] := rfl
    rw [hlit]
    decide
  constructor
  · intro hc
    rw [hpa]
    have hm := countP_mergeCoreAttrs_of_present e.attributes (coreAttrs e) t hc
    have h1le : 1 ≤ (mergeCoreAttrs e.attributes (coreAttrs e)).countP
        (fun a => a.title == t) := by
      rw [hm]
      exact hc
    rw [(classifyAppend_count e.title e.description _ _ t).1 h1le, hm]
  · intro hc0
    rw [hpa]
    by_cases h2c : (mergeCoreAttrs e.attributes (coreAttrs e)).countP
        (fun a => a.title == t) = 0
    · exact (classifyAppend_count e.title e.description _ _ t).2 h2c
    · have h1le : 1 ≤ (mergeCoreAttrs e.attributes (coreAttrs e)).countP
          (fun a => a.title == t) := Nat.one_le_iff_ne_zero.mpr h2c
      rw [(classifyAppend_count e.title e.description _ _ t).1 h1le]
      exact countP_mergeCoreAttrs_of_absent e.attributes (coreAttrs e) t hnd hc0

/-- A record whose collected attribute list already holds two entries with
one title, for the C5 amended witness. -/
def c5AmendedExample : ExtractedFields :=
  { external_id := "a", title := "b",
    attributes := [{ title := "x", value := Option.some "1" },
                   { title := "x", value := Option.some "2" }] }

/-- Witness for the amended C5: the merge keeps both collected `x` entries
(multiplicity 2, unchanged). -/
theorem C5_amended_merge_witness :
    countTitleEntries "x" (buildDbRecord c5AmendedExample) = 2 :=
  ((C5_amended_merge c5AmendedExample (buildDbRecord c5AmendedExample) "x" (by rfl)).1
    (by decide)).trans (by decide)

/-- A fetch environment: page 1 has an item with a cursor, page 2 has zero
items and no derivable cursor, later pages have items with cursors. -/
def c6fetchA : ℕ → Option String → FetchResult := fun pn _ =>
  if pn = 1 then FetchResult.ok [{ widgetType := "POST_ROW", sortDate := Option.some "c1" }]
  else if pn = 2 then FetchResult.ok []
  else FetchResult.ok [{ widgetType := "POST_ROW", sortDate := Option.some "c3" }]

/-- A fetch environment: page 1 has one item whose sort key is missing. -/
def c6fetchB : ℕ → Option String → FetchResult := fun pn _ =>
  if pn = 1 then FetchResult.ok [{ widgetType := "POST_ROW" }]
  else FetchResult.ok [{ widgetType := "POST_ROW", sortDate := Option.some "c" }]

/-- **C6** (counterexample).  The claim says pagination stops exactly when
a page yields zero items AND no cursor can be derived, or at the page
ceiling, or on a failed fetch.  Both directions fail on the code: under
`c6fetchA`, page 2 yields zero items and no derivable cursor, yet the loop
keeps going (the cursor held from page 1 survives) and fetches all five
pages; under `c6fetchB`, page 1 yields an item, no fetch fails and the
ceiling is far away, yet the loop stops because no cursor could be derived
from the last item. -/
theorem C6_counterexample :
    ((mainPagination c6fetchA).1.length = 5 ∧
      (mainPagination c6fetchA).2 = StopReason.exhausted) ∧
    ((mainPagination c6fetchB).1.length = 1 ∧
      (mainPagination c6fetchB).2 = StopReason.noCursorAfterProps ∧
      1 < PAGES_TO_CRAWL) := by
  refine ⟨⟨?_, ?_⟩, ?_, ?_, ?_⟩ <;> decide

/-- Helper for C6: the loop fetches at most as many pages as it has
iterations left. -/
theorem crawlLoop_length_le (f : ℕ → Option String → FetchResult) :
    ∀ (r pn : ℕ) (cur : Option String), (crawlLoop f r pn cur).1.length ≤ r := by
  intro r
  induction r with
  | zero => intro pn cur; simp [crawlLoop]
  | succ r ih =>
    intro pn cur
    cases hf : f pn cur with
    | failed => simp [crawlLoop, hf]
    | noListWidgets => simp [crawlLoop, hf]
    | ok ws =>
      simp only [crawlLoop, hf]
      split
      · split
        · simp
        · rcases hcl : crawlLoop f r (pn + 1) (emptyPageCursor ws cur) with ⟨calls, reason⟩
          have hlen := ih (pn + 1) (emptyPageCursor ws cur)
          rw [hcl] at hlen
          simp only [hcl, List.length_cons]
          simpa using Nat.succ_le_succ hlen
      · split
        · simp
        · rcases hcl : crawlLoop f r (pn + 1)
              (propsPageCursor (ws.filter (fun w => w.widgetType == "POST_ROW"))) with
            ⟨calls, reason⟩
          have hlen := ih (pn + 1)
            (propsPageCursor (ws.filter (fun w => w.widgetType == "POST_ROW")))
          rw [hcl] at hlen
          simp only [hcl, List.length_cons]
          simpa using Nat.succ_le_succ hlen

/-- **C6** (amended).  Pagination makes at most `PAGES_TO_CRAWL` fetches,
and one loop iteration stops exactly in these situations: a failed fetch
(already caught inside the fetch helper, so nothing is raised to the
caller); a response without the widget list; a page with no items when no
truthy cursor is available — neither derivable from that page's last
widget nor carried over from an earlier page — before the last iteration;
and a page with items whose last item yields no truthy cursor, before the
last iteration.  (Otherwise the loop continues, even when a zero-item page
derives no cursor but an earlier cursor is still held.) -/
theorem C6_amended_termination :
    (∀ f : ℕ → Option String → FetchResult,
      (mainPagination f).1.length ≤ PAGES_TO_CRAWL) ∧
    (∀ (f : ℕ → Option String → FetchResult) (r pn : ℕ) (cur : Option String),
      f pn cur = FetchResult.failed →
      crawlLoop f (r + 1) pn cur = ([(pn, cur)], StopReason.fetchFailed)) ∧
    (∀ (f : ℕ → Option String → FetchResult) (r pn : ℕ) (cur : Option String),
      f pn cur = FetchResult.noListWidgets →
      crawlLoop f (r + 1) pn cur = ([(pn, cur)], StopReason.missingListWidgets)) ∧
    (∀ (f : ℕ → Option String → FetchResult) (r pn : ℕ) (cur : Option String)
        (ws : List LWidget),
      f pn cur = FetchResult.ok ws →
      (ws.filter (fun w => w.widgetType == "POST_ROW")).isEmpty = true →
      optStrTruthy (emptyPageCursor ws cur) = false →
      1 ≤ r →
      crawlLoop f (r + 1) pn cur = ([(pn, cur)], StopReason.noCursorNoProps)) ∧
    (∀ (f : ℕ → Option String → FetchResult) (r pn : ℕ) (cur : Option String)
        (ws : List LWidget),
      f pn cur = FetchResult.ok ws →
      (ws.filter (fun w => w.widgetType == "POST_ROW")).isEmpty = false →
      optStrTruthy (propsPageCursor (ws.filter (fun w => w.widgetType == "POST_ROW"))) = false →
      1 ≤ r →
      crawlLoop f (r + 1) pn cur = ([(pn, cur)], StopReason.noCursorAfterProps)) := by
  refine ⟨fun f => crawlLoop_length_le f PAGES_TO_CRAWL 1 Option.none, ?_, ?_, ?_, ?_⟩
  · intro f r pn cur hf
    simp [crawlLoop, hf]
  · intro f r pn cur hf
    simp [crawlLoop, hf]
  · intro f r pn cur ws hf hempty hcur hr
    simp [crawlLoop, hf, hempty, hcur, hr]
  · intro f r pn cur ws hf hempty hcur hr
    simp [crawlLoop, hf, hempty, hcur, hr]

/-- Witness for the amended C6 at concrete fetch environments. -/
theorem C6_amended_termination_witness :
    crawlLoop (fun _ _ => FetchResult.failed) (4 + 1) 1 Option.none =
      ([(1, Option.none)], StopReason.fetchFailed) ∧
    crawlLoop c6fetchB (4 + 1) 1 Option.none =
      ([(1, Option.none)], StopReason.noCursorAfterProps) :=
  ⟨C6_amended_termination.2.1 (fun _ _ => FetchResult.failed) 4 1 Option.none rfl,
   C6_amended_termination.2.2.2.2 c6fetchB 4 1 Option.none
     [{ widgetType := "POST_ROW" }] (by decide) (by decide) (by decide) (by decide)⟩

/-- Helper for C7: updating one position exchanges its contribution to a
`countP`. -/
theorem countP_set_phase (pr : TaskPhase → Bool) :
    ∀ (s : List TaskPhase) (i : ℕ) (q p : TaskPhase), s.get? i = Option.some q →
      (s.set i p).countP pr + (if pr q then 1 else 0) =
        s.countP pr + (if pr p then 1 else 0) := by
  intro s
  induction s with
  | nil => intro i q p h; simp at h
  | cons a t ih =>
    intro i q p h
    cases i with
    | zero =>
      simp only [List.get?] at h
      rcases Option.some.inj h with rfl
      simp only [List.set, List.countP_cons]
      omega
    | succ i =>
      simp only [List.get?] at h
      have := ih i q p h
      simp only [List.set, List.countP_cons]
      omega

/-- Helper for C7: a fetch in flight holds a gate slot, in any state. -/
theorem fetchCount_le_gateCount (s : List TaskPhase) : fetchCount s ≤ gateCount s := by
  refine List.countP_mono_left ?_
  intro a _ h
  cases a <;> simp_all [inGate]

/-- Helper for C7: updating one position exchanges its contribution to the
gate count. -/
theorem gateCount_set (s : List TaskPhase) (i : ℕ) (q p : TaskPhase)
    (h : s.get? i = Option.some q) :
    gateCount (s.set i p) + (if inGate q then 1 else 0) =
      gateCount s + (if inGate p then 1 else 0) :=
  countP_set_phase (fun p => inGate p) s i q p h

/-- Helper for C7: one scheduler step keeps the gate within its bound. -/
theorem gateCount_step (N : ℕ) (s t : List TaskPhase) (hstep : DispatchStep N s t)
    (hle : gateCount s ≤ N) : gateCount t ≤ N := by
  cases hstep with
  | acquire i h hg =>
    have hc := gateCount_set s i TaskPhase.pending TaskPhase.fetching h
    simp [inGate] at hc
    omega
  | toExtract i h =>
    have hc := gateCount_set s i TaskPhase.fetching TaskPhase.extracting h
    simp [inGate] at hc
    omega
  | toAssemble i h =>
    have hc := gateCount_set s i TaskPhase.extracting TaskPhase.assembling h
    simp [inGate] at hc
    omega
  | toEmit i h =>
    have hc := gateCount_set s i TaskPhase.assembling TaskPhase.emitting h
    simp [inGate] at hc
    omega
  | release i h =>
    have hc := gateCount_set s i TaskPhase.emitting TaskPhase.done h
    simp [inGate] at hc
    omega

/-- Helper for C7: the gate never holds more than `N` slots along any
reachable execution. -/
theorem gateCount_le_of_reach (N k : ℕ) :
    ∀ s : List TaskPhase,
      DispatchReach N (List.replicate k TaskPhase.pending) s → gateCount s ≤ N := by
  have hinit : gateCount (List.replicate k TaskPhase.pending) = 0 := by
    rw [gateCount, List.countP_eq_zero]
    intro a ha
    rcases List.eq_of_mem_replicate ha with rfl
    simp [inGate]
  intro s hs
  induction hs with
  | refl =>
    rw [hinit]
    exact Nat.zero_le N
  | tail hr hstep ih => exact gateCount_step N _ _ hstep ih

/-- Helper for C7: reading an updated position. -/
theorem get?_set_self {α : Type} :
    ∀ (s : List α) (i : ℕ) (a q : α), s.get? i = Option.some q →
      (s.set i a).get? i = Option.some a := by
  intro s
  induction s with
  | nil => intro i a q h; simp at h
  | cons b t ih =>
    intro i a q h
    cases i with
    | zero => rfl
    | succ i =>
      simp only [List.get?] at h
      simpa [List.set, List.get?] using ih i a q h

/-- Helper for C7: reading an untouched position. -/
theorem get?_set_ne {α : Type} :
    ∀ (s : List α) (i j : ℕ) (a : α), i ≠ j → (s.set j a).get? i = s.get? i := by
  intro s
  induction s with
  | nil => intro i j a _; simp
  | cons b t ih =>
    intro i j a hne
    cases j with
    | zero =>
      cases i with
      | zero => exact absurd rfl hne
      | succ i => rfl
    | succ j =>
      cases i with
      | zero => rfl
      | succ i =>
        simpa [List.set, List.get?] using ih i j a (fun h => hne (by rw [h]))

/-- Helper for C7: a step that advances position `i0` from `q0` to
`phaseSucc q0` moves every task's phase by zero or one pipeline stage. -/
theorem step_set_order (s : List TaskPhase) (i0 : ℕ) (q0 : TaskPhase)
    (h0 : s.get? i0 = Option.some q0) :
    ∀ (i : ℕ) (q p : TaskPhase), s.get? i = Option.some q →
      (s.set i0 (phaseSucc q0)).get? i = Option.some p →
      p = q ∨ p = phaseSucc q := by
  intro i q p hq hp
  by_cases hii : i = i0
  · subst hii
    rcases Option.some.inj (hq.symm.trans h0) with rfl
    rw [get?_set_self s i (phaseSucc q) q hq] at hp
    exact Or.inr (Option.some.inj hp).symm
  · rw [get?_set_ne s i i0 (phaseSucc q0) hii] at hp
    exact Or.inl (Option.some.inj (hp.symm.trans hq))

/-- **C7**.  For the dispatcher's gate sized `N` (default
`MAX_CONCURRENT_CRAWLS = 3`): in every state reachable from any number of
pending identifiers, at most `N` detail fetches are in flight (indeed at
most `N` tasks hold a gate slot at all, so further identifiers wait); and
every scheduler step moves each task's phase by zero or one stage of its
own fetch → extract → assemble → emit pipeline — the only ordering the
dispatcher guarantees. -/
theorem C7_concurrency_gate :
    (∀ (N k : ℕ) (s : List TaskPhase),
      DispatchReach N (List.replicate k TaskPhase.pending) s →
      fetchCount s ≤ N ∧ gateCount s ≤ N) ∧
    (∀ (N : ℕ) (s t : List TaskPhase), DispatchStep N s t →
      ∀ (i : ℕ) (q p : TaskPhase), s.get? i = Option.some q →
        t.get? i = Option.some p → p = q ∨ p = phaseSucc q) := by
  constructor
  · intro N k s hs
    have hg := gateCount_le_of_reach N k s hs
    exact ⟨Nat.le_trans (fetchCount_le_gateCount s) hg, hg⟩
  · intro N s t hstep
    cases hstep with
    | acquire i h hg => exact step_set_order s i TaskPhase.pending h
    | toExtract i h => exact step_set_order s i TaskPhase.fetching h
    | toAssemble i h => exact step_set_order s i TaskPhase.extracting h
    | toEmit i h => exact step_set_order s i TaskPhase.assembling h
    | release i h => exact step_set_order s i TaskPhase.emitting h

/-- Witness for C7: the initial two-task state is reachable and within the
default gate bound, and one concrete acquire step advances task 0 by one
stage. -/
theorem C7_concurrency_gate_witness :
    (fetchCount (List.replicate 2 TaskPhase.pending) ≤ MAX_CONCURRENT_CRAWLS ∧
      gateCount (List.replicate 2 TaskPhase.pending) ≤ MAX_CONCURRENT_CRAWLS) ∧
    (TaskPhase.fetching = TaskPhase.pending ∨
      TaskPhase.fetching = phaseSucc TaskPhase.pending) :=
  ⟨C7_concurrency_gate.1 MAX_CONCURRENT_CRAWLS 2 (List.replicate 2 TaskPhase.pending)
      (DispatchReach.refl _),
   C7_concurrency_gate.2 MAX_CONCURRENT_CRAWLS [TaskPhase.pending]
      ([TaskPhase.pending].set 0 TaskPhase.fetching)
      (DispatchStep.acquire [TaskPhase.pending] 0 (by rfl) (by decide))
      0 TaskPhase.pending TaskPhase.fetching (by rfl) (by rfl)⟩
